import Mathlib

set_option maxHeartbeats 1000000

/-!
Shallow embedding of the pure string logic of the BCP_SCRIPT repository
(`import_from_s3.py`, `import_local.py`, `main.py`, `merge.py`, `utils.py`).

Strings are modelled as lists of characters (`Str`).  Python's whitespace and
bracket stripping, its case conversion (lowering covers the ASCII and
Latin-1 letters, so `Ã` lowers to `ã`), `pathlib`'s `name`/`stem`
handling (POSIX separators), and the single regular expression used by the
code (`(.+)_\d{8}_\d{6}$`, with Python's semantics for `.`, `\d` restricted
to ASCII digits, and `$` also matching just before a trailing newline) are
modelled character by character from the source.  External processes
(`sqlcmd`, `bcp`) and the object store are modelled by explicit call traces
and oracle-supplied outcomes.
-/

abbrev Str := List Char

/-- The ASCII whitespace characters stripped by Python's `str.strip()`. -/
def pyIsSpace (c : Char) : Bool :=
  c == ' ' || c == '\t' || c == '\n' || c == '\x0d' || c == '\x0b' || c == '\x0c'

/-- Strip characters satisfying `p` from both ends of a string. -/
def stripEnds (p : Char → Bool) (l : Str) : Str :=
  ((l.dropWhile p).reverse.dropWhile p).reverse

/-- Python `str.strip()` (no argument): strip whitespace from both ends. -/
def pyStripWs (l : Str) : Str := stripEnds pyIsSpace l

/-- Python `str.strip("[]")`: strip `[` and `]` characters from both ends. -/
def pyStripBrackets (l : Str) : Str := stripEnds (fun c => c == '[' || c == ']') l

/-- Python `str.lower()` on one character, over the ASCII and Latin-1
ranges: the uppercase ASCII letters `A`-`Z` and the Latin-1 uppercase
letters `À`-`Þ` (U+00C0-U+00DE, excluding the multiplication sign `×`)
map to their lowercase forms 32 code points higher — in particular
`Ã` (U+00C3) lowers to `ã` (U+00E3), as Python does; every other
character is unchanged. -/
def pyLowerChar (c : Char) : Char :=
  if ('A' ≤ c ∧ c ≤ 'Z') ∨ (('À' ≤ c ∧ c ≤ 'Þ') ∧ c ≠ '×') then
    Char.ofNat (c.toNat + 32)
  else c

/-- Python `str.lower()` over the ASCII and Latin-1 ranges. -/
def pyLower (l : Str) : Str := l.map pyLowerChar

/-- Python `str.upper()` restricted to ASCII letters. -/
def pyUpper (l : Str) : Str := l.map Char.toUpper

/-- `nd` is a leading run of `l` (Python `str.startswith`). -/
def leadEq : Str → Str → Bool
  | [], _ => true
  | _ :: _, [] => false
  | a :: as, b :: bs => a == b && leadEq as bs

/-- `nd` is a trailing run of `l` (Python `str.endswith`). -/
def trailEq (nd l : Str) : Bool := leadEq nd.reverse l.reverse

/-- `nd` occurs as a contiguous substring of `l` (Python `in` on strings). -/
def containsSub (nd : Str) : Str → Bool
  | [] => leadEq nd []
  | b :: bs => leadEq nd (b :: bs) || containsSub nd bs

/-- `pathlib.Path(x).name` with POSIX separators: the part after the last `/`. -/
def pyBasename (l : Str) : Str := (l.reverse.takeWhile (fun c => c != '/')).reverse

/-- Index of the last occurrence of `c` in `l`, if any (Python `str.rfind`). -/
def rfindIdx (c : Char) (l : Str) : Option Nat :=
  match l.reverse.findIdx? (fun x => x == c) with
  | none => none
  | some j => some (l.length - 1 - j)

/-- `pathlib.Path(name).stem`: the name with its suffix removed.  The suffix
is `name[i:]` for `i` the index of the last dot, provided `0 < i < len - 1`;
otherwise there is no suffix and the stem is the whole name. -/
def pyStem (l : Str) : Str :=
  match rfindIdx '.' l with
  | none => l
  | some i => if 0 < i ∧ i < l.length - 1 then l.take i else l

/-- `pathlib.Path(name).suffix` under the same rule as `pyStem`. -/
def pySuffixOf (l : Str) : Str :=
  match rfindIdx '.' l with
  | none => []
  | some i => if 0 < i ∧ i < l.length - 1 then l.drop i else []

/-- The fixed 16-character tail `_\d{8}_\d{6}` of the file-name pattern:
an underscore, eight ASCII digits, an underscore, six ASCII digits. -/
def isTsTail (l : Str) : Bool :=
  l.length == 16 && l.take 1 == ['_'] && ((l.drop 1).take 8).all Char.isDigit
    && (l.drop 9).take 1 == ['_'] && ((l.drop 10).all Char.isDigit)

/-- `re.match(r"(.+)_\d{8}_\d{6}$", stem)`: the captured group, if the match
succeeds.  Because the tail of the pattern has fixed length 16 and `.` does
not match a newline, a match exists exactly when the stem ends in the
16-character tail preceded by a non-empty newline-free group — or, because
Python's `$` also matches just before a terminal newline, when the stem ends
in that tail followed by one final newline. -/
def reMatchTsGroup (stem : Str) : Option Str :=
  let n := stem.length
  if 17 ≤ n && isTsTail (stem.drop (n - 16)) && (stem.take (n - 16)).all (fun c => c != '\n') then
    some (stem.take (n - 16))
  else if stem.getLast? == some '\n' && 18 ≤ n
      && isTsTail ((stem.take (n - 1)).drop (n - 17))
      && (stem.take (n - 17)).all (fun c => c != '\n') then
    some (stem.take (n - 17))
  else none

/-- The `.gz`-stripping step of `infer_table_name_from_file`:
`if name.endswith(".gz"): name = name[: -len(".gz")]`. -/
def gzStripped (name : Str) : Str :=
  if trailEq (".gz".data) name then name.take (name.length - 3) else name

/-- Split at the first `.` (Python `str.split(".", 1)` when a dot is present):
the part before the first dot and the part after it. -/
def splitOnFirstDot : Str → Str × Str
  | [] => ([], [])
  | c :: cs =>
    if c == '.' then ([], cs)
    else
      let r := splitOnFirstDot cs
      (c :: r.1, r.2)

namespace ImportFromS3

/-- Truthy tokens of `str_to_bool` in `import_from_s3.py`. -/
def truthy : List Str :=
  ["1".data, "true".data, "t".data, "yes".data, "y".data, "sim".data]

/-- Falsy tokens of `str_to_bool` in `import_from_s3.py` (note `"não"`). -/
def falsy : List Str :=
  ["0".data, "false".data, "f".data, "no".data, "n".data, "nao".data, "não".data]

/-- `str_to_bool` from `import_from_s3.py`.  `none` models a `None` argument
(the result of `os.getenv` on an unset variable). -/
def str_to_bool (value : Option Str) (default : Bool) : Bool :=
  match value with
  | none => default
  | some v =>
    let lower := pyLower (pyStripWs v)
    if lower ∈ truthy then true
    else if lower ∈ falsy then false
    else default

/-- `infer_table_name_from_file` from `import_from_s3.py`:
basename, strip a trailing `.gz`, take the stem, then strip the trailing
`_\d{8}_\d{6}` timestamp if present. -/
def infer_table_name_from_file (filename : Str) : Str :=
  let stem := pyStem (gzStripped (pyBasename filename))
  match reMatchTsGroup stem with
  | some g => g
  | none => stem

end ImportFromS3

namespace ImportLocal

/-- Truthy tokens of `str_to_bool` in `import_local.py`. -/
def truthy : List Str :=
  ["1".data, "true".data, "t".data, "yes".data, "y".data, "sim".data]

/-- Falsy tokens of `str_to_bool` in `import_local.py` (no `"não"`). -/
def falsy : List Str :=
  ["0".data, "false".data, "f".data, "no".data, "n".data, "nao".data]

/-- `str_to_bool` from `import_local.py`. -/
def str_to_bool (value : Option Str) (default : Bool) : Bool :=
  match value with
  | none => default
  | some v =>
    let lower := pyLower (pyStripWs v)
    if lower ∈ truthy then true
    else if lower ∈ falsy then false
    else default

/-- `infer_table_name_from_file` from `import_local.py` (textually identical
to the `import_from_s3.py` copy). -/
def infer_table_name_from_file (filename : Str) : Str :=
  let stem := pyStem (gzStripped (pyBasename filename))
  match reMatchTsGroup stem with
  | some g => g
  | none => stem

end ImportLocal

/-- `parse_table_name` (identical in `import_from_s3.py` and
`import_local.py`): strip whitespace and outer brackets, then split on the
first `.` if one is present, defaulting the schema to `dbo`. -/
def parse_table_name (raw_table : Str) : Str × Str :=
  let cleaned := pyStripBrackets (pyStripWs raw_table)
  if '.' ∈ cleaned then splitOnFirstDot cleaned
  else ("dbo".data, cleaned)

/-- The rendering step of `normalize_table_identifiers`: the bracketed form
`[schema].[name]` and the dotted form `schema.name`. -/
def render_identity (schema name : Str) : Str × Str :=
  (('[' :: schema) ++ "].[".data ++ name ++ [']'], schema ++ '.' :: name)

/-- `normalize_table_identifiers` (identical in both import modules):
parse, then render the bracketed and dotted forms. -/
def normalize_table_identifiers (raw_table : Str) : Str × Str :=
  let p := parse_table_name raw_table
  render_identity p.1 p.2

/-- `confirm_truncate` (identical in both import modules): strip the typed
answer, uppercase it, and cancel with an error unless it equals `"SIM"`.
The interactive `input(...)` result is the `answer` parameter. -/
def confirm_truncate (answer : Str) : Except Str Unit :=
  if pyUpper (pyStripWs answer) = "SIM".data then Except.ok ()
  else Except.error ("Operacao cancelada pelo usuario.".data)

/-- An invocation of an external process or of the object store, as issued
by the scripts.  Only the payload relevant to the claims is recorded. -/
inductive ExtProc where
  | sqlcmdQuery : Str → ExtProc
  | sqlcmdScript : Str → ExtProc
  | bcpIn : Str → Str → ExtProc
  | bcpQueryOut : Str → ExtProc
  | s3List : ExtProc
  | s3Download : Str → ExtProc
  | s3Upload : Str → ExtProc
deriving Repr, DecidableEq

/-- The statement issued by `truncate_table`: `TRUNCATE TABLE <table>`. -/
def truncateQuery (table_for_sql : Str) : Str :=
  "TRUNCATE TABLE ".data ++ table_for_sql

/-- The confirm-then-truncate slice of `main` in both import modules:
`confirm_truncate` runs first, and only on its success is the
`truncate_table` invocation issued. -/
def confirmThenTruncate (answer table_for_sql : Str) : List ExtProc × Except Str Unit :=
  match confirm_truncate answer with
  | Except.error e => ([], Except.error e)
  | Except.ok _ => ([ExtProc.sqlcmdQuery (truncateQuery table_for_sql)], Except.ok ())

/-- The base-table existence guard at the head of the `import_from_s3.py`
staging statement: `IF OBJECT_ID(base) IS NULL THROW 50001 ...`. -/
def base_table_guard (base : Str) : Str :=
  "IF OBJECT_ID(N'".data ++ base
    ++ "', 'U') IS NULL\nBEGIN\n    THROW 50001, 'Tabela base nao encontrada no banco de destino.', 1;\nEND\n".data

/-- The conditional SQL statement built by `ensure_staging_table` in
`import_from_s3.py` (lines 85-122), transcribed literally: the base-table
guard, then a guarded dynamic `CREATE TABLE` synthesised from the system
catalog. -/
def ensure_staging_query_s3 (base staging : Str) : Str :=
  base_table_guard base
    ++ "IF OBJECT_ID(N'".data ++ staging
    ++ "', 'U') IS NULL\nBEGIN\n    DECLARE @sql NVARCHAR(MAX) = N'CREATE TABLE ".data
    ++ staging
    ++ (" (' +\n        STUFF((\n            SELECT\n                ',[' + c.name + '] ' +\n"
      ++ "                t.name +\n                CASE\n"
      ++ "                    WHEN t.name IN ('varchar','char','varbinary','binary')\n"
      ++ "                        THEN '(' + CASE WHEN c.max_length = -1 THEN 'MAX' ELSE CAST(c.max_length AS NVARCHAR(10)) END + ')'\n"
      ++ "                    WHEN t.name IN ('nvarchar','nchar')\n"
      ++ "                        THEN '(' + CASE WHEN c.max_length = -1 THEN 'MAX' ELSE CAST(c.max_length / 2 AS NVARCHAR(10)) END + ')'\n"
      ++ "                    WHEN t.name IN ('decimal','numeric')\n"
      ++ "                        THEN '(' + CAST(c.precision AS NVARCHAR(10)) + ',' + CAST(c.scale AS NVARCHAR(10)) + ')'\n"
      ++ "                    WHEN t.name IN ('datetime2','time','datetimeoffset')\n"
      ++ "                        THEN '(' + CAST(c.scale AS NVARCHAR(10)) + ')'\n"
      ++ "                    ELSE ''\n                END +\n"
      ++ "                CASE WHEN c.is_nullable = 1 THEN ' NULL' ELSE ' NOT NULL' END\n"
      ++ "            FROM sys.columns c\n"
      ++ "            JOIN sys.types t ON c.user_type_id = t.user_type_id\n"
      ++ "            WHERE c.object_id = OBJECT_ID(N'").data
    ++ base
    ++ ("')\n            ORDER BY c.column_id\n            FOR XML PATH(''), TYPE\n"
      ++ "        ).value('.', 'NVARCHAR(MAX)'), 1, 1, '') +\n        ')';\n"
      ++ "    EXEC sp_executesql @sql;\nEND").data

/-- The conditional SQL statement built by `ensure_staging_table` in
`import_local.py` (lines 84-90): only the staging table's absence is
tested, and the structural clone `SELECT TOP 0 * INTO` is executed. -/
def ensure_staging_query_local (base staging : Str) : Str :=
  "IF OBJECT_ID(N'".data ++ staging
    ++ "', 'U') IS NULL\nBEGIN\n    SELECT TOP 0 * INTO ".data ++ staging
    ++ " FROM ".data ++ base ++ ";\nEND".data

/-- The captured outcome of one external `bcp` run. -/
structure BcpRunResult where
  rc : Int
  stdout : Str
  stderr : Str

/-- The diagnostic sample block of `run_bcp_import` (identical in both of
the import modules): when an error file was passed, it could be opened
(`fileLines = some _`; `none` models `None` or an `OSError`), and its first
`readline` results (at most 5, terminators included) are non-empty, they
are appended to the message under a header naming the file. -/
def bcpExampleRows (error_file : Option Str) (fileLines : Option (List Str)) : Str :=
  match error_file with
  | none => []
  | some ef =>
    if ef = [] then []
    else
      match fileLines with
      | none => []
      | some ls =>
        let lines := ls.take 5
        if lines = [] then []
        else
          "\n\nExemplo de linhas com erro (arquivo ".data ++ ef ++ "):\n".data
            ++ lines.flatten

/-- `run_bcp_import` (identical in both import modules), after the external
`bcp` process has produced `result`: exit code 0 returns silently; any
other exit code raises an error whose message combines the exit code, the
captured stdout and stderr, and the diagnostic sample. -/
def run_bcp_import (result : BcpRunResult) (error_file : Option Str)
    (fileLines : Option (List Str)) : Except Str Unit :=
  if result.rc ≠ 0 then
    Except.error ("Erro no BCP import (".data ++ (toString result.rc).data
      ++ ")\nSTDOUT:\n".data ++ result.stdout
      ++ "\n\nSTDERR:\n".data ++ result.stderr
      ++ bcpExampleRows error_file fileLines)
  else Except.ok ()

/-- The value of a non-empty all-digit string (the digits of `int(s)`). -/
def digitsVal : Str → Option Nat
  | [] => none
  | l =>
    if l.all Char.isDigit then
      some (l.foldl (fun acc c => acc * 10 + (c.toNat - 48)) 0)
    else none

/-- Python `int(s)` on an optionally signed decimal string: surrounding
whitespace is ignored, a single leading `+` or `-` is allowed, and the rest
must be non-empty digits (underscore grouping is not modelled). `none`
models the `ValueError`. -/
def pyInt (l : Str) : Option Int :=
  match pyStripWs l with
  | '+' :: ds => (digitsVal ds).map (fun n => (n : Int))
  | '-' :: ds => (digitsVal ds).map (fun n => -(n : Int))
  | ds => (digitsVal ds).map (fun n => (n : Int))

/-- The configuration-error message both import `main`s raise for a missing
or negative `BCP_MAX_ERRORS` integer. -/
def maxErrorsErrMsg : Str :=
  "BCP_MAX_ERRORS deve ser um numero inteiro maior ou igual a zero".data

/-- The `BCP_MAX_ERRORS` validation block of both import `main`s:
`int(env) if env is not None else 1`, rejecting a parse failure or a
negative value with the configuration error. -/
def parseMaxErrors (env : Option Str) : Except Str Int :=
  match env with
  | none => Except.ok 1
  | some s =>
    match pyInt s with
    | none => Except.error maxErrorsErrMsg
    | some n => if n < 0 then Except.error maxErrorsErrMsg else Except.ok n

/-- Python truthiness of an optional environment string (`if not val`). -/
def isUnsetOrEmpty (v : Option Str) : Bool :=
  match v with
  | none => true
  | some s => s.isEmpty

/-- `missing = [name for name, val in required if not val]`. -/
def missingOf (required : List (Str × Option Str)) : List Str :=
  (required.filter (fun nv => isUnsetOrEmpty nv.2)).map (fun nv => nv.1)

/-- The missing-variables error message of the import `main`s. -/
def envMissingMsg (missing : List Str) : Str :=
  "As seguintes variaveis nao foram definidas: ".data
    ++ List.intercalate (", ".data) missing

/-- The environment read by `import_from_s3.main` (`os.getenv` results). -/
structure S3Env where
  server : Option Str
  database : Option Str
  username : Option Str
  password : Option Str
  s3_access_key_id : Option Str
  s3_secret_access_key : Option Str
  s3_region : Option Str
  s3_bucket : Option Str
  s3_prefix : Str
  s3_object_key : Option Str
  bcp_max_errors : Option Str
  bcp_error_file : Option Str

/-- Oracle outcomes for the external steps of `import_from_s3.main`. -/
structure S3World where
  listedKey : Except Str Str
  downloadResult : Except Str Unit
  ensureRc : Int
  ensureStderr : Str
  confirmAnswer : Str
  truncateRc : Int
  truncateStderr : Str
  bcpResult : BcpRunResult
  bcpFileLines : Option (List Str)

/-- The decompressed local file name: `maybe_decompress_gzip` replaces a
`.gz`-suffixed path by the path without that suffix. -/
def decompressedName (name : Str) : Str :=
  if pySuffixOf name = ".gz".data then pyStem name else name

/-- `import_from_s3.main` as a trace-producing function: the list of
external invocations actually issued, in order, and the run's outcome
(`Except.error` models the logged failure and `sys.exit(1)`).  Statement
order follows the source: the `BCP_MAX_ERRORS` validation comes first,
before the required-variable check, the key check, and every external
call.  The timestamped default error-file path is abstracted to a fixed
name. -/
def importS3Main (env : S3Env) (w : S3World) : List ExtProc × Except Str Unit :=
  match parseMaxErrors env.bcp_max_errors with
  | Except.error e => ([], Except.error e)
  | Except.ok _ =>
    let error_file := env.bcp_error_file.getD ("import_errors.err".data)
    let required : List (Str × Option Str) :=
      [("STAGE_DB_SERVER".data, env.server), ("STAGE_DB_DATABASE".data, env.database),
       ("STAGE_DB_USERNAME".data, env.username), ("STAGE_DB_PASSWORD".data, env.password),
       ("S3_ACCESS_KEY_ID".data, env.s3_access_key_id),
       ("S3_SECRET_ACCESS_KEY".data, env.s3_secret_access_key),
       ("S3_REGION".data, env.s3_region), ("S3_BUCKET".data, env.s3_bucket)]
    let missing := missingOf required
    if missing ≠ [] then ([], Except.error (envMissingMsg missing))
    else if env.s3_object_key = none ∧ env.s3_prefix = [] then
      ([], Except.error ("Defina S3_OBJECT_KEY ou pelo menos S3_KEY para listar o prefixo.".data))
    else
      let rstep : List ExtProc × Except Str Str :=
        match env.s3_object_key with
        | some k => ([], Except.ok k)
        | none => ([ExtProc.s3List], w.listedKey)
      match rstep with
      | (calls0, Except.error e) => (calls0, Except.error e)
      | (calls0, Except.ok key) =>
        let calls1 := calls0 ++ [ExtProc.s3Download key]
        match w.downloadResult with
        | Except.error e => (calls1, Except.error e)
        | Except.ok _ =>
          let localName := decompressedName (pyBasename key)
          let raw_table := ImportFromS3.infer_table_name_from_file localName
          let st := parse_table_name raw_table
          let staging_raw := st.1 ++ '.' :: (st.2 ++ "_STAGING".data)
          let norm := normalize_table_identifiers staging_raw
          let baseNorm := normalize_table_identifiers raw_table
          let calls2 := calls1
            ++ [ExtProc.sqlcmdQuery (ensure_staging_query_s3 baseNorm.1 norm.1)]
          if w.ensureRc ≠ 0 then
            (calls2, Except.error ("Erro ao criar tabela staging (".data
              ++ (toString w.ensureRc).data ++ "). STDERR: ".data ++ w.ensureStderr))
          else
            match confirm_truncate w.confirmAnswer with
            | Except.error e => (calls2, Except.error e)
            | Except.ok _ =>
              let calls3 := calls2 ++ [ExtProc.sqlcmdQuery (truncateQuery norm.1)]
              if w.truncateRc ≠ 0 then
                (calls3, Except.error ("Erro ao truncar tabela (".data
                  ++ (toString w.truncateRc).data ++ "). STDERR: ".data ++ w.truncateStderr))
              else
                let calls4 := calls3 ++ [ExtProc.bcpIn norm.2 localName]
                match run_bcp_import w.bcpResult (some error_file) w.bcpFileLines with
                | Except.error e => (calls4, Except.error e)
                | Except.ok _ => (calls4, Except.ok ())

/-- The environment read by `import_local.main`. -/
structure LocalEnv where
  server : Option Str
  database : Option Str
  username : Option Str
  password : Option Str
  local_import_file : Option Str
  bcp_max_errors : Option Str
  bcp_error_file : Option Str

/-- Oracle outcomes for the external steps of `import_local.main`
(`resolvedFile` is the file-system resolution, not an external process). -/
structure LocalWorld where
  resolvedFile : Except Str Str
  ensureRc : Int
  ensureStderr : Str
  confirmAnswer : Str
  truncateRc : Int
  truncateStderr : Str
  bcpResult : BcpRunResult
  bcpFileLines : Option (List Str)

/-- `import_local.main` as a trace-producing function, mirroring the source
order: `BCP_MAX_ERRORS` validation, required-variable check, local file
resolution, then the staged external invocations. -/
def importLocalMain (env : LocalEnv) (w : LocalWorld) : List ExtProc × Except Str Unit :=
  match parseMaxErrors env.bcp_max_errors with
  | Except.error e => ([], Except.error e)
  | Except.ok _ =>
    let error_file := env.bcp_error_file.getD ("import_errors.err".data)
    let required : List (Str × Option Str) :=
      [("STAGE_DB_SERVER".data, env.server), ("STAGE_DB_DATABASE".data, env.database),
       ("STAGE_DB_USERNAME".data, env.username), ("STAGE_DB_PASSWORD".data, env.password)]
    let missing := missingOf required
    if missing ≠ [] then ([], Except.error (envMissingMsg missing))
    else
      match w.resolvedFile with
      | Except.error e => ([], Except.error e)
      | Except.ok f =>
        let localName := decompressedName (pyBasename f)
        let raw_table := ImportLocal.infer_table_name_from_file localName
        let st := parse_table_name raw_table
        let staging_raw := st.1 ++ '.' :: (st.2 ++ "_STAGING".data)
        let norm := normalize_table_identifiers staging_raw
        let baseNorm := normalize_table_identifiers raw_table
        let calls2 : List ExtProc :=
          [ExtProc.sqlcmdQuery (ensure_staging_query_local baseNorm.1 norm.1)]
        if w.ensureRc ≠ 0 then
          (calls2, Except.error ("Erro ao criar tabela staging (".data
            ++ (toString w.ensureRc).data ++ "). STDERR: ".data ++ w.ensureStderr))
        else
          match confirm_truncate w.confirmAnswer with
          | Except.error e => (calls2, Except.error e)
          | Except.ok _ =>
            let calls3 := calls2 ++ [ExtProc.sqlcmdQuery (truncateQuery norm.1)]
            if w.truncateRc ≠ 0 then
              (calls3, Except.error ("Erro ao truncar tabela (".data
                ++ (toString w.truncateRc).data ++ "). STDERR: ".data ++ w.truncateStderr))
            else
              let calls4 := calls3 ++ [ExtProc.bcpIn norm.2 localName]
              match run_bcp_import w.bcpResult (some error_file) w.bcpFileLines with
              | Except.error e => (calls4, Except.error e)
              | Except.ok _ => (calls4, Except.ok ())

/-- The per-script loop shared by `main.py` and `merge.py`: each script is
tried; an exception is caught, recorded as a `(script, message)` failure,
and the loop continues.  Returns the scripts attempted (in order) and the
failures recorded (in order). -/
def batchLoop (body : Str → Except Str Unit) : List Str → List Str × List (Str × Str)
  | [] => ([], [])
  | s :: rest =>
    let r := batchLoop body rest
    match body s with
    | Except.ok _ => (s :: r.1, r.2)
    | Except.error e => (s :: r.1, (s, e) :: r.2)

/-- `if failures: sys.exit(1)` — the process exit status after the loop. -/
def batchExitCode (failures : List (Str × Str)) : Nat :=
  if failures = [] then 0 else 1

/-- Oracle outcomes for the per-script steps of `main.py` (export). -/
structure ExportWorld where
  loadResult : Str → Except Str Str
  bcpRc : Str → Int
  bcpStdout : Str → Str
  bcpStderr : Str → Str
  uploadResult : Str → Except Str Unit

/-- The error check of `run_bcp_export` in `main.py`. -/
def run_bcp_export (rc : Int) (out err : Str) : Except Str Unit :=
  if rc ≠ 0 then
    Except.error ("Erro no BCP ".data ++ (toString rc).data
      ++ "\nSTDOUT:\n".data ++ out ++ "\n\nSTDERR:\n".data ++ err)
  else Except.ok ()

/-- One export script's pipeline body in `main.py`: load the query, run the
`bcp` export, gzip (local, cannot fail in the model), upload to the store. -/
def exportScriptBody (w : ExportWorld) (name : Str) : Except Str Unit :=
  match w.loadResult name with
  | Except.error e => Except.error e
  | Except.ok _ =>
    match run_bcp_export (w.bcpRc name) (w.bcpStdout name) (w.bcpStderr name) with
    | Except.error e => Except.error e
    | Except.ok _ => w.uploadResult name

/-- The batch driver of `main.py`: the loop over scripts plus the final
exit status. -/
def exportMainBatch (w : ExportWorld) (scripts : List Str) :
    List Str × List (Str × Str) × Nat :=
  let r := batchLoop (exportScriptBody w) scripts
  (r.1, r.2, batchExitCode r.2)

/-- `determine_targets` from `merge.py`: decide from the (lowercased) file
name whether the script runs on stage, dest or both; any other name is an
error. -/
def determine_targets (filename : Str) : Except Str (Bool × Bool) :=
  let name := pyLower filename
  if leadEq ("both_".data) name || trailEq ("_both.sql".data) name then
    Except.ok (true, true)
  else if leadEq ("stage_".data) name || trailEq ("_stage.sql".data) name then
    Except.ok (true, false)
  else if leadEq ("dest_".data) name || trailEq ("_dest.sql".data) name then
    Except.ok (false, true)
  else
    Except.error ("Nome de script invalido. Use prefixos stage_, dest_ ou both_ (ou sufixos _stage.sql, _dest.sql, _both.sql).".data)

/-- The error check of `run_sqlcmd` in `merge.py`. -/
def run_sqlcmd_check (rc : Int) (out err : Str) : Except Str Unit :=
  if rc ≠ 0 then
    Except.error ("Erro no sqlcmd ".data ++ (toString rc).data
      ++ "\nSTDOUT:\n".data ++ out ++ "\n\nSTDERR:\n".data ++ err)
  else Except.ok ()

/-- Oracle outcomes for the per-script steps of `merge.py`. -/
structure MergeWorld where
  loadResult : Str → Except Str Str
  stageRc : Str → Int
  stageStdout : Str → Str
  stageStderr : Str → Str
  destRc : Str → Int
  destStdout : Str → Str
  destStderr : Str → Str

/-- One merge script's pipeline body in `merge.py`: load the query,
determine the targets, run `sqlcmd` on stage and/or dest. -/
def mergeScriptBody (w : MergeWorld) (name : Str) : Except Str Unit :=
  match w.loadResult name with
  | Except.error e => Except.error e
  | Except.ok _ =>
    match determine_targets name with
    | Except.error e => Except.error e
    | Except.ok t =>
      match (if t.1 then run_sqlcmd_check (w.stageRc name) (w.stageStdout name) (w.stageStderr name)
             else Except.ok ()) with
      | Except.error e => Except.error e
      | Except.ok _ =>
        if t.2 then run_sqlcmd_check (w.destRc name) (w.destStdout name) (w.destStderr name)
        else Except.ok ()

/-- The batch driver of `merge.py`: the loop over scripts plus the final
exit status. -/
def mergeMainBatch (w : MergeWorld) (scripts : List Str) :
    List Str × List (Str × Str) × Nat :=
  let r := batchLoop (mergeScriptBody w) scripts
  (r.1, r.2, batchExitCode r.2)

/-! ### Helper lemmas about the string model -/

theorem leadEq_append_self : ∀ (x y : Str), leadEq x (x ++ y) = true := by
  intro x y
  induction x with
  | nil => simp [leadEq]
  | cons a as ih => simp [leadEq, ih]

theorem trailEq_append_self (nd m : Str) : trailEq nd (m ++ nd) = true := by
  simp [trailEq, List.reverse_append, leadEq_append_self]

theorem pyBasename_eq_self (l : Str) (h : ∀ c ∈ l, c ≠ '/') : pyBasename l = l := by
  unfold pyBasename
  rw [List.takeWhile_eq_self_iff.mpr, List.reverse_reverse]
  intro a ha
  simp only [List.mem_reverse] at ha
  simp [h a ha]

theorem trailEq_gz_bcp (s : Str) :
    trailEq (".gz".data) (s ++ ('.' :: 'b' :: 'c' :: 'p' :: [])) = false := by
  have hrev : (s ++ ('.' :: 'b' :: 'c' :: 'p' :: [])).reverse
      = 'p' :: 'c' :: 'b' :: '.' :: s.reverse := by
    simp [List.reverse_append]
  rw [trailEq, hrev]
  simp [leadEq]

theorem gzStripped_gz (core : Str) :
    gzStripped (core ++ ('.' :: 'g' :: 'z' :: [])) = core := by
  rw [gzStripped, if_pos (by exact trailEq_append_self _ _)]
  have hlen : (core ++ ('.' :: 'g' :: 'z' :: [])).length - 3 = core.length := by
    simp
  rw [hlen]
  exact List.take_left _ _

theorem gzStripped_bcp (s : Str) :
    gzStripped (s ++ ('.' :: 'b' :: 'c' :: 'p' :: []))
      = s ++ ('.' :: 'b' :: 'c' :: 'p' :: []) := by
  rw [gzStripped, trailEq_gz_bcp]
  simp

theorem rfindIdx_dot_bcp (s : Str) :
    rfindIdx '.' (s ++ ('.' :: 'b' :: 'c' :: 'p' :: [])) = some s.length := by
  have hrev : (s ++ ('.' :: 'b' :: 'c' :: 'p' :: [])).reverse
      = 'p' :: 'c' :: 'b' :: '.' :: s.reverse := by
    simp [List.reverse_append]
  have hfind : (('p' : Char) :: 'c' :: 'b' :: '.' :: s.reverse).findIdx?
      (fun x => x == '.') = some 3 := by
    simp [List.findIdx?_cons]
  rw [rfindIdx, hrev, hfind]
  simp

theorem pyStem_bcp (s : Str) (hs : s ≠ []) :
    pyStem (s ++ ('.' :: 'b' :: 'c' :: 'p' :: [])) = s := by
  rw [pyStem, rfindIdx_dot_bcp]
  have hcond : 0 < s.length ∧ s.length < (s ++ ('.' :: 'b' :: 'c' :: 'p' :: [])).length - 1 := by
    have h1 : (s ++ ('.' :: 'b' :: 'c' :: 'p' :: [])).length = s.length + 4 := by simp
    have h2 := List.length_pos.mpr hs
    omega
  simp only [Option.some.injEq]
  rw [if_pos hcond]
  exact List.take_left _ _

theorem isTsTail_canonical (d8 d6 : Str) (h8 : d8.length = 8)
    (h8d : d8.all Char.isDigit = true) (h6 : d6.length = 6)
    (h6d : d6.all Char.isDigit = true) :
    isTsTail ('_' :: (d8 ++ '_' :: d6)) = true := by
  have hlen : ('_' :: (d8 ++ '_' :: d6)).length = 16 := by simp [h8, h6]
  have hd1 : ('_' :: (d8 ++ '_' :: d6)).drop 1 = d8 ++ '_' :: d6 := rfl
  have hd9 : ('_' :: (d8 ++ '_' :: d6)).drop 9 = '_' :: d6 := by
    show (d8 ++ '_' :: d6).drop 8 = '_' :: d6
    exact List.drop_left' h8
  have hd10 : ('_' :: (d8 ++ '_' :: d6)).drop 10 = d6 := by
    show (d8 ++ '_' :: d6).drop 9 = d6
    rw [show (9 : Nat) = d8.length + 1 from by omega, List.drop_append]
    rfl
  have ht8 : (d8 ++ '_' :: d6).take 8 = d8 := List.take_left' h8
  rw [isTsTail, hlen, hd1, hd9, hd10, ht8]
  simp [h8d, h6d]

theorem reMatchTsGroup_canonical (p d8 d6 : Str) (hp : p ≠ [])
    (hpn : ∀ c ∈ p, c ≠ '\n') (h8 : d8.length = 8)
    (h8d : d8.all Char.isDigit = true) (h6 : d6.length = 6)
    (h6d : d6.all Char.isDigit = true) :
    reMatchTsGroup (p ++ '_' :: (d8 ++ '_' :: d6)) = some p := by
  have htl : ('_' :: (d8 ++ '_' :: d6)).length = 16 := by simp [h8, h6]
  have hn : (p ++ '_' :: (d8 ++ '_' :: d6)).length = p.length + 16 := by
    rw [List.length_append, htl]
  have hsub : (p ++ '_' :: (d8 ++ '_' :: d6)).length - 16 = p.length := by omega
  have hdrop : (p ++ '_' :: (d8 ++ '_' :: d6)).drop p.length = '_' :: (d8 ++ '_' :: d6) :=
    List.drop_left _ _
  have htake : (p ++ '_' :: (d8 ++ '_' :: d6)).take p.length = p :=
    List.take_left _ _
  have hcond : (17 ≤ (p ++ '_' :: (d8 ++ '_' :: d6)).length) := by
    have := List.length_pos.mpr hp
    omega
  have hall : p.all (fun c => c != '\n') = true := by
    rw [List.all_eq_true]
    intro c hc
    simp [hpn c hc]
  rw [reMatchTsGroup]
  simp only [hsub, hdrop, htake, isTsTail_canonical d8 d6 h8 h8d h6 h6d, hall,
    decide_eq_true hcond, Bool.and_self, if_true]

/-- C1: for every file name of the form `<prefix>_<8 digits>_<6 digits>.bcp`
with an optional `.gz` compression suffix — where the prefix is a non-empty
file-name fragment (no path separator, no newline) — the function
`infer_table_name_from_file` returns exactly the prefix. -/
theorem infer_table_name_from_file_strips_timestamp (p d8 d6 : Str) (gz : Bool)
    (hp : p ≠ []) (hslash : ∀ c ∈ p, c ≠ '/') (hnl : ∀ c ∈ p, c ≠ '\n')
    (h8 : d8.length = 8) (h8d : ∀ c ∈ d8, c.isDigit = true)
    (h6 : d6.length = 6) (h6d : ∀ c ∈ d6, c.isDigit = true) :
    ImportFromS3.infer_table_name_from_file
      ((p ++ '_' :: (d8 ++ '_' :: d6)) ++ ".bcp".data
        ++ (if gz then ".gz".data else [])) = p := by
  have hbcp : ".bcp".data = ('.' :: 'b' :: 'c' :: 'p' :: []) := rfl
  have hgzd : ".gz".data = ('.' :: 'g' :: 'z' :: []) := rfl
  have hsne : p ++ '_' :: (d8 ++ '_' :: d6) ≠ [] := by
    intro h
    exact hp (List.append_eq_nil.mp h).1
  have hdig : ∀ c : Char, c.isDigit = true → c ≠ '/' := by
    intro c hc he
    rw [he] at hc
    simp [Char.isDigit] at hc
  have htail : ∀ c ∈ '_' :: (d8 ++ '_' :: d6), c ≠ '/' := by
    intro c hc
    rcases List.mem_cons.mp hc with h | h
    · rw [h]; decide
    · rcases List.mem_append.mp h with h2 | h2
      · exact hdig c (h8d c h2)
      · rcases List.mem_cons.mp h2 with h3 | h3
        · rw [h3]; decide
        · exact hdig c (h6d c h3)
  have hcore : ∀ c ∈ (p ++ '_' :: (d8 ++ '_' :: d6)) ++ ('.' :: 'b' :: 'c' :: 'p' :: []),
      c ≠ '/' := by
    intro c hc
    rcases List.mem_append.mp hc with h | h
    · rcases List.mem_append.mp h with h2 | h2
      · exact hslash c h2
      · exact htail c h2
    · fin_cases h <;> decide
  have hmatch : reMatchTsGroup (p ++ '_' :: (d8 ++ '_' :: d6)) = some p :=
    reMatchTsGroup_canonical p d8 d6 hp hnl h8
      (List.all_eq_true.mpr (fun c hc => h8d c hc)) h6
      (List.all_eq_true.mpr (fun c hc => h6d c hc))
  cases gz with
  | false =>
    rw [if_neg (by simp)]
    rw [List.append_nil, hbcp, ImportFromS3.infer_table_name_from_file]
    rw [pyBasename_eq_self _ hcore, gzStripped_bcp, pyStem_bcp _ hsne, hmatch]
  | true =>
    rw [if_pos rfl, hgzd, hbcp]
    have hassoc : (p ++ '_' :: (d8 ++ '_' :: d6)) ++ ('.' :: 'b' :: 'c' :: 'p' :: [])
          ++ ('.' :: 'g' :: 'z' :: [])
        = ((p ++ '_' :: (d8 ++ '_' :: d6)) ++ ('.' :: 'b' :: 'c' :: 'p' :: []))
          ++ ('.' :: 'g' :: 'z' :: []) := by simp
    have hall : ∀ c ∈ ((p ++ '_' :: (d8 ++ '_' :: d6)) ++ ('.' :: 'b' :: 'c' :: 'p' :: []))
        ++ ('.' :: 'g' :: 'z' :: []), c ≠ '/' := by
      intro c hc
      rcases List.mem_append.mp hc with h | h
      · exact hcore c h
      · fin_cases h <;> decide
    rw [hassoc, ImportFromS3.infer_table_name_from_file, pyBasename_eq_self _ hall,
      gzStripped_gz, pyStem_bcp _ hsne, hmatch]

/-- C1 witness: `infer_table_name_from_file` applied to the concrete file
name `dbo.Customers_20240115_093000.bcp.gz` yields `dbo.Customers`. -/
theorem infer_table_name_from_file_strips_timestamp_witness :
    ImportFromS3.infer_table_name_from_file ("dbo.Customers_20240115_093000.bcp.gz".data)
      = "dbo.Customers".data := by
  have h := infer_table_name_from_file_strips_timestamp ("dbo.Customers".data)
    ("20240115".data) ("093000".data) true
    (by decide) (by decide) (by decide) (by decide) (by decide) (by decide) (by decide)
  exact h

theorem dropWhile_eq_self_of_head (p : Char → Bool) (l : Str)
    (h : l.head?.all (fun c => !(p c)) = true) : l.dropWhile p = l := by
  cases l with
  | nil => rfl
  | cons a l =>
    simp only [List.head?_cons, Option.all_some, Bool.not_eq_true'] at h
    simp [List.dropWhile_cons, h]

theorem stripEnds_eq_self (p : Char → Bool) (l : Str)
    (hh : l.head?.all (fun c => !(p c)) = true)
    (hl : l.getLast?.all (fun c => !(p c)) = true) :
    stripEnds p l = l := by
  rw [stripEnds, dropWhile_eq_self_of_head p l hh,
    dropWhile_eq_self_of_head p l.reverse (by rw [List.head?_reverse]; exact hl)]
  exact List.reverse_reverse l

theorem splitOnFirstDot_append (s n : Str) (h : '.' ∉ s) :
    splitOnFirstDot (s ++ '.' :: n) = (s, n) := by
  induction s with
  | nil => simp [splitOnFirstDot]
  | cons a s ih =>
    have ha : a ≠ '.' := fun he => h (by rw [he]; exact List.mem_cons_self _ _)
    have hs : '.' ∉ s := fun hm => h (List.mem_cons_of_mem _ hm)
    simp only [List.cons_append, splitOnFirstDot, List.append_eq]
    rw [if_neg (by simp [ha]), ih hs]

theorem splitOnFirstDot_recover (l : Str) (h : '.' ∈ l) :
    (splitOnFirstDot l).1 ++ '.' :: (splitOnFirstDot l).2 = l
      ∧ '.' ∉ (splitOnFirstDot l).1 := by
  induction l with
  | nil => simp at h
  | cons a l ih =>
    by_cases ha : a = '.'
    · subst ha
      simp [splitOnFirstDot]
    · have hm : '.' ∈ l := by
        rcases List.mem_cons.mp h with h1 | h1
        · exact absurd h1.symm ha
        · exact h1
      have := ih hm
      simp only [splitOnFirstDot]
      rw [if_neg (by simp [ha])]
      constructor
      · simpa using this.1
      · intro hmem
        rcases List.mem_cons.mp hmem with h1 | h1
        · exact ha h1.symm
        · exact this.2 h1

/-- C2 counterexample: on the bracketed input `[dbo].[Orders]`,
`parse_table_name` does not return schema `dbo` and name `Orders` —
`str.strip("[]")` removes only the outer brackets, so the split yields
`dbo]` and `[Orders`. -/
theorem parse_table_name_bracketed_example_cex :
    parse_table_name ("[dbo].[Orders]".data) ≠ ("dbo".data, "Orders".data) := by
  decide

/-- C2 (amended): `parse_table_name` maps `Sales.Orders` to
(`Sales`, `Orders`) and `Orders` to (`dbo`, `Orders`); on `[dbo].[Orders]`
only the outer brackets are stripped, giving (`dbo]`, `[Orders`). -/
theorem parse_table_name_examples_amended :
    parse_table_name ("Sales.Orders".data) = ("Sales".data, "Orders".data)
      ∧ parse_table_name ("Orders".data) = ("dbo".data, "Orders".data)
      ∧ parse_table_name ("[dbo].[Orders]".data) = ("dbo]".data, "[Orders".data) := by
  decide

/-- C8 counterexample: on the empty input, `parse_table_name` returns an
empty name, so the non-emptiness invariant fails. -/
theorem parse_table_name_empty_input_cex :
    ¬ ((parse_table_name ("".data)).1 ≠ [] ∧ (parse_table_name ("".data)).2 ≠ []) := by
  decide

/-- C8 (amended): whenever the whitespace- and bracket-trimmed input is
non-empty and neither starts nor ends with a dot, the parsed schema and
name are both non-empty. -/
theorem parse_table_name_nonempty_amended (raw : Str)
    (h0 : pyStripBrackets (pyStripWs raw) ≠ [])
    (hh : (pyStripBrackets (pyStripWs raw)).head? ≠ some '.')
    (hl : (pyStripBrackets (pyStripWs raw)).getLast? ≠ some '.') :
    (parse_table_name raw).1 ≠ [] ∧ (parse_table_name raw).2 ≠ [] := by
  rw [parse_table_name]
  by_cases hd : '.' ∈ pyStripBrackets (pyStripWs raw)
  · rw [if_pos hd]
    obtain ⟨hrec, hnomem⟩ := splitOnFirstDot_recover _ hd
    constructor
    · intro he
      rw [he, List.nil_append] at hrec
      exact hh (by rw [← hrec]; rfl)
    · intro he
      rw [he] at hrec
      apply hl
      rw [← hrec]
      simp
  · rw [if_neg hd]
    exact ⟨(by decide : "dbo".data ≠ []), h0⟩

/-- C8 witness: the amended non-emptiness theorem applied at the concrete
input `Sales.Orders`. -/
theorem parse_table_name_nonempty_amended_witness :
    (parse_table_name ("Sales.Orders".data)).1 ≠ []
      ∧ (parse_table_name ("Sales.Orders".data)).2 ≠ [] := by
  exact parse_table_name_nonempty_amended ("Sales.Orders".data)
    (by decide) (by decide) (by decide)

/-- C9 counterexample: for the identity with schema `A` and name `B ` —
whose parts contain no dot and no brackets — rendering, re-parsing the
dotted form and rendering again differs from the direct rendering, because
`parse_table_name` strips the name's trailing whitespace. -/
theorem render_roundtrip_cex :
    normalize_table_identifiers ((render_identity ("A".data) ("B ".data)).2)
      ≠ render_identity ("A".data) ("B ".data) := by
  decide

/-- C9 (amended): for every identity whose schema and name contain no dot
and no square brackets, and whose dotted rendering has no leading or
trailing whitespace, parsing the dotted rendering and rendering again
reproduces both the bracketed and the dotted forms. -/
theorem render_roundtrip_amended (s n : Str)
    (hs : ∀ c ∈ s, c ≠ '.' ∧ c ≠ '[' ∧ c ≠ ']')
    (hn : ∀ c ∈ n, c ≠ '.' ∧ c ≠ '[' ∧ c ≠ ']')
    (hh : s.head?.all (fun c => !(pyIsSpace c)) = true)
    (hl : n.getLast?.all (fun c => !(pyIsSpace c)) = true) :
    normalize_table_identifiers ((render_identity s n).2) = render_identity s n := by
  have hdot : (render_identity s n).2 = s ++ '.' :: n := rfl
  have hlastfull : ∀ p : Char → Bool, p '.' = false →
      (∀ c, n.getLast? = some c → p c = false) →
      (s ++ '.' :: n).getLast?.all (fun c => !(p c)) = true := by
    intro p hpd hpn
    rw [List.getLast?_append]
    cases n with
    | nil => simp [hpd]
    | cons b m =>
      obtain ⟨x, hx⟩ := Option.isSome_iff_exists.mp
        (List.getLast?_isSome.mpr (List.cons_ne_nil b m))
      rw [List.getLast?_cons_cons, hx]
      simp [hpn x hx]
  have hheadfull : ∀ p : Char → Bool, p '.' = false →
      (∀ c, s.head? = some c → p c = false) →
      (s ++ '.' :: n).head?.all (fun c => !(p c)) = true := by
    intro p hpd hps
    cases s with
    | nil => simp [hpd]
    | cons a s' =>
      simp only [List.cons_append, List.head?_cons, Option.all_some, Bool.not_eq_true']
      exact hps a rfl
  have hh1 : (s ++ '.' :: n).head?.all (fun c => !(pyIsSpace c)) = true := by
    apply hheadfull pyIsSpace (by decide)
    intro c hc
    cases s with
    | nil => simp at hc
    | cons a s' =>
      simp only [List.head?_cons, Option.some.injEq] at hc
      subst hc
      simpa using hh
  have hl1 : (s ++ '.' :: n).getLast?.all (fun c => !(pyIsSpace c)) = true := by
    apply hlastfull pyIsSpace (by decide)
    intro c hc
    rw [hc] at hl
    simpa using hl
  have hh2 : (s ++ '.' :: n).head?.all (fun c => !(c == '[' || c == ']')) = true := by
    apply hheadfull _ (by decide)
    intro c hc
    have hcm : c ∈ s := by
      cases s with
      | nil => simp at hc
      | cons a s' =>
        simp only [List.head?_cons, Option.some.injEq] at hc
        subst hc
        exact List.mem_cons_self _ _
    obtain ⟨-, h2, h3⟩ := hs c hcm
    simp [h2, h3]
  have hl2 : (s ++ '.' :: n).getLast?.all (fun c => !(c == '[' || c == ']')) = true := by
    apply hlastfull _ (by decide)
    intro c hc
    have hcm : c ∈ n := List.mem_of_mem_getLast? hc
    obtain ⟨-, h2, h3⟩ := hn c hcm
    simp [h2, h3]
  have h1 : pyStripWs (s ++ '.' :: n) = s ++ '.' :: n := stripEnds_eq_self _ _ hh1 hl1
  have h2 : pyStripBrackets (s ++ '.' :: n) = s ++ '.' :: n := stripEnds_eq_self _ _ hh2 hl2
  have hmem : '.' ∈ s ++ '.' :: n := List.mem_append.mpr (Or.inr (List.mem_cons_self _ _))
  have hsd : '.' ∉ s := fun hm => ((hs _ hm).1 rfl)
  rw [hdot, normalize_table_identifiers, parse_table_name, h1, h2, if_pos hmem,
    splitOnFirstDot_append s n hsd]

/-- C9 witness: the amended round-trip theorem applied to the staging
identity with schema `dbo` and name `Customers_STAGING`. -/
theorem render_roundtrip_amended_witness :
    normalize_table_identifiers
        ((render_identity ("dbo".data) ("Customers_STAGING".data)).2)
      = render_identity ("dbo".data) ("Customers_STAGING".data) := by
  exact render_roundtrip_amended ("dbo".data) ("Customers_STAGING".data)
    (by decide) (by decide) (by decide) (by decide)

/-- C4 counterexample: the input `" SIM "` makes `confirm_truncate` proceed
although it does not case-insensitively equal the token `SIM` (the code
strips surrounding whitespace before comparing). -/
theorem confirm_truncate_whitespace_cex :
    confirm_truncate (" SIM ".data) = Except.ok ()
      ∧ pyUpper (" SIM ".data) ≠ pyUpper ("SIM".data) := by
  constructor
  · rfl
  · decide

/-- C4 (amended): for every confirmation input, the truncate stage proceeds
— and the single `TRUNCATE TABLE` invocation is issued — exactly when the
whitespace-stripped input case-insensitively equals `SIM`; otherwise the
cancellation error is raised and no truncate call is issued. -/
theorem confirm_truncate_gate_amended (answer table_for_sql : Str) :
    confirmThenTruncate answer table_for_sql =
      if pyUpper (pyStripWs answer) = pyUpper ("SIM".data) then
        ([ExtProc.sqlcmdQuery (truncateQuery table_for_sql)], Except.ok ())
      else
        ([], Except.error ("Operacao cancelada pelo usuario.".data)) := by
  have hSIM : pyUpper ("SIM".data) = "SIM".data := by decide
  rw [hSIM, confirmThenTruncate, confirm_truncate]
  by_cases h : pyUpper (pyStripWs answer) = "SIM".data
  · rw [if_pos h, if_pos h]
  · rw [if_neg h, if_neg h]

theorem containsSub_nil (hay : Str) : containsSub [] hay = true := by
  cases hay <;> simp [containsSub, leadEq]

theorem containsSub_cons_of (nd : Str) (b : Char) (bs : Str)
    (h : containsSub nd bs = true) : containsSub nd (b :: bs) = true := by
  simp [containsSub, h]

theorem containsSub_here (nd post : Str) : containsSub nd (nd ++ post) = true := by
  cases nd with
  | nil => simpa using containsSub_nil post
  | cons c cs =>
    have h := leadEq_append_self (c :: cs) post
    simp only [List.cons_append] at h ⊢
    simp [containsSub, h]

theorem containsSub_of_append (pre nd post : Str) :
    containsSub nd (pre ++ nd ++ post) = true := by
  induction pre with
  | nil => simpa using containsSub_here nd post
  | cons a pre ih =>
    have he : (a :: pre) ++ nd ++ post = a :: (pre ++ nd ++ post) := by simp
    rw [he]
    exact containsSub_cons_of _ _ _ ih

theorem leadEq_mem (nd l : Str) (h : leadEq nd l = true) : ∀ c ∈ nd, c ∈ l := by
  induction nd generalizing l with
  | nil => intro c hc; simp at hc
  | cons a nd ih =>
    cases l with
    | nil => simp [leadEq] at h
    | cons b bs =>
      simp only [leadEq, Bool.and_eq_true, beq_iff_eq] at h
      intro c hc
      rcases List.mem_cons.mp hc with h1 | h1
      · rw [h1, h.1]; exact List.mem_cons_self _ _
      · exact List.mem_cons_of_mem _ (ih bs h.2 c h1)

theorem containsSub_mem (nd hay : Str) (h : containsSub nd hay = true) :
    ∀ c ∈ nd, c ∈ hay := by
  induction hay with
  | nil =>
    intro c hc
    cases nd with
    | nil => simp at hc
    | cons a nd => simp [containsSub, leadEq] at h
  | cons b bs ih =>
    simp only [containsSub, Bool.or_eq_true] at h
    intro c hc
    rcases h with h | h
    · exact leadEq_mem nd (b :: bs) h c hc
    · exact List.mem_cons_of_mem _ (ih h c hc)

/-- C5: `run_bcp_import` raises an error exactly when the bulk-copy exit
code is non-zero; the raised message is the composition of the exit code,
the captured stdout, the captured stderr and the diagnostic sample (which
is the first at most 5 lines of the error file); exit code 0 returns
successfully. -/
theorem run_bcp_import_error_reporting (res : BcpRunResult) (ef : Option Str)
    (fl : Option (List Str)) :
    ((run_bcp_import res ef fl = Except.ok ()) ↔ res.rc = 0)
    ∧ (res.rc ≠ 0 →
        run_bcp_import res ef fl = Except.error
          ("Erro no BCP import (".data ++ (toString res.rc).data
            ++ ")\nSTDOUT:\n".data ++ res.stdout
            ++ "\n\nSTDERR:\n".data ++ res.stderr
            ++ bcpExampleRows ef fl))
    ∧ (∀ m, run_bcp_import res ef fl = Except.error m →
        containsSub res.stdout m = true ∧ containsSub res.stderr m = true)
    ∧ (∀ ls, fl = some ls → (ls.take 5).length ≤ 5 ∧ ls.take 5 ++ ls.drop 5 = ls) := by
  refine ⟨?_, ?_, ?_, ?_⟩
  · by_cases h : res.rc = 0
    · simp [run_bcp_import, h]
    · simp [run_bcp_import, h]
  · intro h
    rw [run_bcp_import, if_pos h]
  · intro m hm
    by_cases h : res.rc = 0
    · rw [run_bcp_import, if_neg (by simp [h])] at hm
      exact absurd hm (by simp)
    · rw [run_bcp_import, if_pos h] at hm
      have hmeq : m = "Erro no BCP import (".data ++ (toString res.rc).data
          ++ ")\nSTDOUT:\n".data ++ res.stdout
          ++ "\n\nSTDERR:\n".data ++ res.stderr
          ++ bcpExampleRows ef fl := by
        injection hm.symm
      subst hmeq
      constructor
      · have h1 := containsSub_of_append
          ("Erro no BCP import (".data ++ (toString res.rc).data ++ ")\nSTDOUT:\n".data)
          res.stdout
          ("\n\nSTDERR:\n".data ++ res.stderr ++ bcpExampleRows ef fl)
        simpa only [List.append_assoc] using h1
      · have h1 := containsSub_of_append
          ("Erro no BCP import (".data ++ (toString res.rc).data ++ ")\nSTDOUT:\n".data
            ++ res.stdout ++ "\n\nSTDERR:\n".data)
          res.stderr
          (bcpExampleRows ef fl)
        simpa only [List.append_assoc] using h1
  · intro ls _
    exact ⟨List.length_take_le _ _, List.take_append_drop _ _⟩

/-- C5 witness: a concrete failed run (exit code 2, six error-file lines)
raises the composed message, with the sample truncated to five lines. -/
theorem run_bcp_import_error_reporting_witness :
    run_bcp_import ⟨2, "out".data, "err".data⟩ (some ("errors.err".data))
        (some ["a\n".data, "b\n".data, "c\n".data, "d\n".data, "e\n".data, "f\n".data])
      = Except.error
          ("Erro no BCP import (2)\nSTDOUT:\nout\n\nSTDERR:\nerr\n\nExemplo de linhas com erro (arquivo errors.err):\na\nb\nc\nd\ne\n".data) := by
  have h := (run_bcp_import_error_reporting ⟨2, "out".data, "err".data⟩
    (some ("errors.err".data))
    (some ["a\n".data, "b\n".data, "c\n".data, "d\n".data, "e\n".data, "f\n".data])).2.1
    (by decide)
  rw [h]
  have : ("Erro no BCP import (".data ++ (toString (2 : Int)).data
      ++ ")\nSTDOUT:\n".data ++ "out".data
      ++ "\n\nSTDERR:\n".data ++ "err".data
      ++ bcpExampleRows (some ("errors.err".data))
          (some ["a\n".data, "b\n".data, "c\n".data, "d\n".data, "e\n".data, "f\n".data]))
      = "Erro no BCP import (2)\nSTDOUT:\nout\n\nSTDERR:\nerr\n\nExemplo de linhas com erro (arquivo errors.err):\na\nb\nc\nd\ne\n".data := by
    decide
  rw [this]

/-- C3 counterexample: for the concrete base `[dbo].[Orders]` and staging
`[dbo].[Orders_STAGING]`, the conditional statement built by the
`import_local.py` variant of `ensure_staging_table` contains neither the
base-table existence guard nor any `THROW`: it has no server-side fail-fast
precondition on the base table. -/
theorem ensure_staging_local_no_base_guard_cex :
    containsSub (base_table_guard ("[dbo].[Orders]".data))
        (ensure_staging_query_local ("[dbo].[Orders]".data)
          ("[dbo].[Orders_STAGING]".data)) = false
      ∧ containsSub ("THROW".data)
        (ensure_staging_query_local ("[dbo].[Orders]".data)
          ("[dbo].[Orders_STAGING]".data)) = false := by
  decide

/-- C3 (amended): for every pair of identities, the statement built by
`ensure_staging_table` in `import_from_s3.py` begins with the base-table
existence guard (`IF OBJECT_ID(base) IS NULL THROW 50001 ...`), so it fails
fast server-side when the base table does not exist; the `import_local.py`
variant's statement contains no `THROW` at all (whenever the interpolated
identities do not themselves contain the letter `W`) — it only tests the
staging table's existence. -/
theorem ensure_staging_base_guard_amended (base staging : Str)
    (hbW : 'W' ∉ base) (hsW : 'W' ∉ staging) :
    containsSub (base_table_guard base) (ensure_staging_query_s3 base staging) = true
    ∧ containsSub ("THROW".data) (ensure_staging_query_local base staging) = false := by
  constructor
  · rw [ensure_staging_query_s3]
    simp only [List.append_assoc]
    exact containsSub_here _ _
  · by_cases h : containsSub ("THROW".data) (ensure_staging_query_local base staging) = true
    · exfalso
      have hW : 'W' ∈ ensure_staging_query_local base staging :=
        containsSub_mem _ _ h 'W' (by decide)
      rw [ensure_staging_query_local] at hW
      simp only [List.append_assoc, List.mem_append] at hW
      rcases hW with h1 | h1 | h1 | h1 | h1 | h1 | h1
      · exact absurd h1 (by decide)
      · exact hsW h1
      · exact absurd h1 (by decide)
      · exact hsW h1
      · exact absurd h1 (by decide)
      · exact hbW h1
      · exact absurd h1 (by decide)
    · simpa using h

/-- C3 witness: the amended guard theorem applied to the concrete
identities `[dbo].[Orders]` and `[dbo].[Orders_STAGING]`. -/
theorem ensure_staging_base_guard_amended_witness :
    containsSub (base_table_guard ("[dbo].[Orders]".data))
        (ensure_staging_query_s3 ("[dbo].[Orders]".data)
          ("[dbo].[Orders_STAGING]".data)) = true
      ∧ containsSub ("THROW".data)
        (ensure_staging_query_local ("[dbo].[Orders]".data)
          ("[dbo].[Orders_STAGING]".data)) = false := by
  exact ensure_staging_base_guard_amended ("[dbo].[Orders]".data)
    ("[dbo].[Orders_STAGING]".data) (by decide) (by decide)

/-- C6: the max-errors setting defaults to 1 when the variable is unset,
and for every negative configured value both import `main`s stop with the
configuration error while the trace of external invocations is empty — the
error is raised before any external process is invoked. -/
theorem max_errors_validation (env : S3Env) (envL : LocalEnv) (w : S3World)
    (wL : LocalWorld) (s : Str) (n : Int)
    (hs : env.bcp_max_errors = some s) (hsL : envL.bcp_max_errors = some s)
    (hn : pyInt s = some n) (hneg : n < 0) :
    parseMaxErrors none = Except.ok 1
    ∧ importS3Main env w = ([], Except.error maxErrorsErrMsg)
    ∧ importLocalMain envL wL = ([], Except.error maxErrorsErrMsg) := by
  have hp : ∀ e : Option Str, e = some s → parseMaxErrors e = Except.error maxErrorsErrMsg := by
    intro e he
    rw [he]
    simp only [parseMaxErrors, hn]
    rw [if_pos hneg]
  refine ⟨rfl, ?_, ?_⟩
  · rw [importS3Main, hp env.bcp_max_errors hs]
  · rw [importLocalMain, hp envL.bcp_max_errors hsL]

/-- C6 witness: with `BCP_MAX_ERRORS=-1`, both import `main`s stop with the
configuration error and an empty trace of external invocations. -/
theorem max_errors_validation_witness :
    parseMaxErrors none = Except.ok 1
    ∧ importS3Main
        ⟨some ("srv".data), some ("db".data), some ("usr".data), some ("pwd".data),
         some ("ak".data), some ("sk".data), some ("rg".data), some ("bkt".data),
         "pre".data, none, some ("-1".data), none⟩
        ⟨Except.ok ("k.bcp".data), Except.ok (), 0, [], "SIM".data, 0, [],
         ⟨0, [], []⟩, none⟩
      = ([], Except.error maxErrorsErrMsg)
    ∧ importLocalMain
        ⟨some ("srv".data), some ("db".data), some ("usr".data), some ("pwd".data),
         none, some ("-1".data), none⟩
        ⟨Except.ok ("k.bcp".data), 0, [], "SIM".data, 0, [], ⟨0, [], []⟩, none⟩
      = ([], Except.error maxErrorsErrMsg) := by
  exact max_errors_validation _ _ _ _ ("-1".data) (-1) rfl rfl (by decide) (by decide)

theorem batchLoop_spec (body : Str → Except Str Unit) (scripts : List Str) :
    (batchLoop body scripts).1 = scripts
    ∧ (batchLoop body scripts).2 = scripts.filterMap (fun s =>
        match body s with
        | Except.ok _ => none
        | Except.error e => some (s, e)) := by
  induction scripts with
  | nil => simp [batchLoop]
  | cons s rest ih =>
    rw [batchLoop]
    cases hb : body s with
    | ok u =>
      simp only [hb, List.filterMap_cons]
      exact ⟨by rw [ih.1], by rw [ih.2]⟩
    | error e =>
      simp only [hb, List.filterMap_cons]
      exact ⟨by rw [ih.1], by rw [ih.2]⟩

theorem batchExitCode_ne_zero_iff (f : List (Str × Str)) :
    batchExitCode f ≠ 0 ↔ f ≠ [] := by
  by_cases h : f = [] <;> simp [batchExitCode, h]

/-- C7: in both the export (`main.py`) and merge (`merge.py`) batch
drivers, every script in the input list is attempted, a failing script is
caught and recorded as exactly one failure entry, and the final exit status
is non-zero if and only if at least one script failed. -/
theorem batch_drivers_isolate_failures (we : ExportWorld) (wm : MergeWorld)
    (scriptsE scriptsM : List Str) :
    ((exportMainBatch we scriptsE).1 = scriptsE
      ∧ (exportMainBatch we scriptsE).2.1 = scriptsE.filterMap (fun s =>
          match exportScriptBody we s with
          | Except.ok _ => none
          | Except.error e => some (s, e))
      ∧ ((exportMainBatch we scriptsE).2.2 ≠ 0 ↔ (exportMainBatch we scriptsE).2.1 ≠ []))
    ∧ ((mergeMainBatch wm scriptsM).1 = scriptsM
      ∧ (mergeMainBatch wm scriptsM).2.1 = scriptsM.filterMap (fun s =>
          match mergeScriptBody wm s with
          | Except.ok _ => none
          | Except.error e => some (s, e))
      ∧ ((mergeMainBatch wm scriptsM).2.2 ≠ 0 ↔ (mergeMainBatch wm scriptsM).2.1 ≠ [])) := by
  have hE := batchLoop_spec (exportScriptBody we) scriptsE
  have hM := batchLoop_spec (mergeScriptBody wm) scriptsM
  constructor
  · exact ⟨hE.1, hE.2, batchExitCode_ne_zero_iff _⟩
  · exact ⟨hM.1, hM.2, batchExitCode_ne_zero_iff _⟩

/-- C10 counterexample: on the inputs `não` and `NÃO` (which lowers to
`não`) with default `True` (the default both callers pass via
`BCP_KEEP_IDENTITY`), the two duplicated `str_to_bool` functions
disagree — the `import_from_s3.py` falsy set contains `"não"`, the
`import_local.py` one does not. -/
theorem str_to_bool_divergence_cex :
    (ImportFromS3.str_to_bool (some ("não".data)) true = false
      ∧ ImportLocal.str_to_bool (some ("não".data)) true = true)
    ∧ (ImportFromS3.str_to_bool (some ("NÃO".data)) true = false
      ∧ ImportLocal.str_to_bool (some ("NÃO".data)) true = true) := by
  decide

/-- C10 (amended): the duplicated helpers agree everywhere except on
`"não"`: for every input whose stripped lowercase form is not `"não"` and
every default, the two `str_to_bool` functions return the same boolean
(and so do they on an unset variable), and the two
`infer_table_name_from_file` functions return the same string on every
file name. -/
theorem duplicated_helpers_agree_amended (v : Str) (d : Bool) (f : Str)
    (hv : pyLower (pyStripWs v) ≠ "não".data) :
    ImportFromS3.str_to_bool (some v) d = ImportLocal.str_to_bool (some v) d
    ∧ ImportFromS3.str_to_bool none d = ImportLocal.str_to_bool none d
    ∧ ImportFromS3.infer_table_name_from_file f
        = ImportLocal.infer_table_name_from_file f := by
  refine ⟨?_, rfl, rfl⟩
  rw [ImportFromS3.str_to_bool, ImportLocal.str_to_bool]
  by_cases ht : pyLower (pyStripWs v) ∈ ImportFromS3.truthy
  · rw [if_pos ht, if_pos (show pyLower (pyStripWs v) ∈ ImportLocal.truthy from ht)]
  · rw [if_neg ht, if_neg (show pyLower (pyStripWs v) ∉ ImportLocal.truthy from ht)]
    by_cases hf : pyLower (pyStripWs v) ∈ ImportLocal.falsy
    · have hf2 : pyLower (pyStripWs v) ∈ ImportFromS3.falsy := by
        simp only [ImportLocal.falsy, List.mem_cons, List.not_mem_nil, or_false] at hf
        simp only [ImportFromS3.falsy, List.mem_cons, List.not_mem_nil, or_false]
        tauto
      rw [if_pos hf2, if_pos hf]
    · have hf2 : pyLower (pyStripWs v) ∉ ImportFromS3.falsy := by
        intro hmem
        simp only [ImportFromS3.falsy, List.mem_cons, List.not_mem_nil, or_false] at hmem
        simp only [ImportLocal.falsy, List.mem_cons, List.not_mem_nil, or_false] at hf
        tauto
      rw [if_neg hf2, if_neg hf]

/-- C10 witness: the amended agreement theorem applied to the input `yes`
with default `True`. -/
theorem duplicated_helpers_agree_amended_witness :
    pyLower (pyStripWs ("yes".data)) ≠ "não".data
    ∧ ImportFromS3.str_to_bool (some ("yes".data)) true
        = ImportLocal.str_to_bool (some ("yes".data)) true := by
  refine ⟨by decide, ?_⟩
  exact (duplicated_helpers_agree_amended ("yes".data) true ("x.bcp".data) (by decide)).1
